import Mathlib

/-!
# Keymaster enforcement engine

A shallow embedding of `include/keymaster/keymaster_enforcement.h`
(class `KeymasterEnforcement`) together with the properties of its inline
members.  Member functions take the object as an explicit state argument;
non-`const` members return the new state.  The pure virtual clock
`get_current_time_ms()` is an input: every function that reads the clock takes
the reading `ms` it obtained, a `uint64_t`, i.e. a natural number reduced
modulo `2 ^ 64`.

The bodies of `AuthorizeBegin`, `MinTimeBetweenOpsPassed`,
`MaxUsesPerBootNotExceeded` and the two access maps are not part of the header;
they are modelled from the design document and marked as such.
-/

namespace keymaster

/-! ## Machine integers -/

/-- Number of values of a `uint64_t`. -/
def UINT64_RANGE : Nat := 2 ^ 64

/-- Number of values of a `uint32_t`. -/
def UINT32_RANGE : Nat := 2 ^ 32

/-- Key identifier, `typedef uint64_t km_id_t`. -/
abbrev km_id_t := Nat

/-- Operation handle, `keymaster_operation_handle_t` (a `uint64_t`). -/
abbrev keymaster_operation_handle_t := Nat

/-- Status codes.  `KM_ERROR_OK` and `KM_ERROR_UNIMPLEMENTED` are the two codes
the header names; the remaining constructors are the denial reasons listed in
the error taxonomy of the design document (section 7). -/
inductive keymaster_error_t
  | KM_ERROR_OK
  | KM_ERROR_UNIMPLEMENTED
  | key_not_yet_active
  | key_expired
  | rate_limit_violated
  | usage_limit_exceeded
  | early_boot_restricted
  | device_locked_restricted
  | authentication_required_missing
  | authentication_expired
  | authentication_mismatched_secure_id
  | authentication_signature_invalid
  | operation_handle_mismatch
  deriving DecidableEq, Repr

open keymaster_error_t

/-! ## Bounded usage trackers (`AccessTimeMap`, `AccessCountMap`) -/

/-- Modelled from the spec: the classes `AccessTimeMap` and `AccessCountMap`
are only forward-declared in the header.  A tracker is a fixed-capacity
associative store from key id to a value (last-access time in seconds, or
per-boot use count); `entries` is kept in insertion order, oldest first. -/
structure BoundedTracker where
  capacity : Nat
  entries : List (km_id_t × Nat)
  deriving DecidableEq, Repr

/-- Value stored for `keyid` in an entry list, if any. -/
def lookupEntry : List (km_id_t × Nat) → km_id_t → Option Nat
  | [], _ => none
  | (k, v) :: rest, keyid => if k = keyid then some v else lookupEntry rest keyid

/-- Replace the value stored for `keyid`, leaving every other entry alone. -/
def overwriteEntry : List (km_id_t × Nat) → km_id_t → Nat → List (km_id_t × Nat)
  | [], _, _ => []
  | (k, v) :: rest, keyid, value =>
    if k = keyid then (k, value) :: rest else (k, v) :: overwriteEntry rest keyid value

/-- Smallest value stored in an entry list (`0` for the empty list). -/
def minValue : List (km_id_t × Nat) → Nat
  | [] => 0
  | [(_, v)] => v
  | (_, v) :: rest => min v (minValue rest)

/-- Remove the first entry whose value is `m`. -/
def removeFirstWithValue : List (km_id_t × Nat) → Nat → List (km_id_t × Nat)
  | [], _ => []
  | (k, v) :: rest, m => if v = m then rest else (k, v) :: removeFirstWithValue rest m

/-- Modelled from the spec: eviction of exactly one entry by the least-useful
policy, the entry with the smallest timestamp / count among the current entries
(section 8, eviction property); among equal values the oldest-inserted entry
goes (the tie-break is left open by the design document).  The results on the
rate limits below hold whichever entry is the victim. -/
def evictOne (entries : List (km_id_t × Nat)) : List (km_id_t × Nat) :=
  removeFirstWithValue entries (minValue entries)

/-- Modelled from the spec: construction with a fixed maximum entry capacity. -/
def BoundedTracker.create (max_size : Nat) : BoundedTracker :=
  { capacity := max_size % UINT32_RANGE, entries := [] }

/-- Modelled from the spec: `Lookup(key_id) -> optional value`. -/
def BoundedTracker.Lookup (t : BoundedTracker) (keyid : km_id_t) : Option Nat :=
  lookupEntry t.entries keyid

/-- Modelled from the spec: `Update(key_id, value)` inserts or overwrites.  When
an insert would exceed the capacity, one existing entry is evicted before the
new entry is inserted, so the table size never exceeds the capacity.  A tracker
of capacity `0` can hold no entry at all: it has nothing to evict and stays
empty. -/
def BoundedTracker.Update (t : BoundedTracker) (keyid : km_id_t) (value : Nat) :
    BoundedTracker :=
  if (lookupEntry t.entries keyid).isSome then
    { t with entries := overwriteEntry t.entries keyid value }
  else if t.entries.length < t.capacity then
    { t with entries := t.entries ++ [(keyid, value)] }
  else if t.capacity = 0 then
    t
  else
    { t with entries := evictOne t.entries ++ [(keyid, value)] }

/-! ## The engine state -/

/-- Data members of `KeymasterEnforcement`.  The two pointer members are
represented by the trackers they point to. -/
structure KeymasterEnforcement where
  access_time_map_ : BoundedTracker
  access_count_map_ : BoundedTracker
  in_early_boot_ : Bool
  device_locked_at_ : Nat
  password_unlock_only_ : Bool
  deriving DecidableEq, Repr

/-- Constructor `KeymasterEnforcement(max_access_time_map_size,
max_access_count_map_size)`.  The header declares it and gives the default
member initialisers `in_early_boot_ = true`, `device_locked_at_ = 0`,
`password_unlock_only_ = false`; its body is defined elsewhere and is taken to
create the two maps with the given capacities (both `uint32_t`) and to
initialise no other member. -/
def KeymasterEnforcement.create (max_access_time_map_size max_access_count_map_size : Nat) :
    KeymasterEnforcement :=
  { access_time_map_ := BoundedTracker.create max_access_time_map_size
    access_count_map_ := BoundedTracker.create max_access_count_map_size
    in_early_boot_ := true
    device_locked_at_ := 0
    password_unlock_only_ := false }

/-- Reader `bool in_early_boot() const { return in_early_boot_; }`. -/
def in_early_boot (s : KeymasterEnforcement) : Bool :=
  s.in_early_boot_

/-- Reader `uint32_t get_current_time() const`:
`static_cast<uint32_t>(get_current_time_ms() / 1000)`, where `ms` is the
`uint64_t` the clock returned. -/
def get_current_time (ms : Nat) : Nat :=
  ((ms % UINT64_RANGE) / 1000) % UINT32_RANGE

/-- Member `void early_boot_ended() { in_early_boot_ = false; }`. -/
def early_boot_ended (s : KeymasterEnforcement) : KeymasterEnforcement :=
  { s with in_early_boot_ := false }

/-- Member `void device_locked(bool password_only)`:
`device_locked_at_ = get_current_time_ms(); password_unlock_only_ = password_only;`
with `ms` the clock reading. -/
def device_locked (s : KeymasterEnforcement) (ms : Nat) (password_only : Bool) :
    KeymasterEnforcement :=
  { s with device_locked_at_ := ms % UINT64_RANGE, password_unlock_only_ := password_only }

/-- Result type `KmErrorOr<std::array<uint8_t, 32>>`: an error code or a
32-byte array. -/
abbrev KmErrorOrMac := Except keymaster_error_t { mac : List (Fin 256) // mac.length = 32 }

/-- Base-class `ComputeHmac(const std::vector<uint8_t>&) const`:
`return KM_ERROR_UNIMPLEMENTED;`. -/
def ComputeHmac (_s : KeymasterEnforcement) (_data_to_mac : List (Fin 256)) : KmErrorOrMac :=
  Except.error KM_ERROR_UNIMPLEMENTED

/-- The members whose bodies are in the header, as calls on the object.  The
clock reading each call obtains is part of the call. -/
inductive MemberCall
  | call_in_early_boot
  | call_get_current_time (ms : Nat)
  | call_early_boot_ended
  | call_device_locked (ms : Nat) (password_only : Bool)
  | call_ComputeHmac (data_to_mac : List (Fin 256))

/-- State of the object after a member call: `const` members leave the object
as it is, the two signalling members return their new state. -/
def MemberCall.exec (s : KeymasterEnforcement) : MemberCall → KeymasterEnforcement
  | .call_in_early_boot => s
  | .call_get_current_time _ => s
  | .call_early_boot_ended => early_boot_ended s
  | .call_device_locked ms password_only => device_locked s ms password_only
  | .call_ComputeHmac _ => s

/-- The two state-affecting operations of the engine. -/
inductive SignalOp
  | early_boot_ended
  | device_locked (ms : Nat) (password_only : Bool)
  deriving DecidableEq, Repr

/-- Apply one state-affecting operation. -/
def SignalOp.apply (s : KeymasterEnforcement) : SignalOp → KeymasterEnforcement
  | .early_boot_ended => keymaster.early_boot_ended s
  | .device_locked ms password_only => keymaster.device_locked s ms password_only

/-- Apply a finite sequence of state-affecting operations, first to last. -/
def runSignals (s : KeymasterEnforcement) : List SignalOp → KeymasterEnforcement
  | [] => s
  | op :: ops => runSignals (op.apply s) ops

/-- Member `AuthorizeUpdate`: `return AuthorizeUpdateOrFinish(auth_set,
operation_params, op_handle);`.  The private routine is declared in the header
and defined elsewhere, so it is a parameter; it is a non-`const` member and
returns a status together with the new state. -/
def AuthorizeUpdate {AuthProxy AuthorizationSet : Type}
    (AuthorizeUpdateOrFinish : KeymasterEnforcement → AuthProxy → AuthorizationSet →
      keymaster_operation_handle_t → keymaster_error_t × KeymasterEnforcement)
    (s : KeymasterEnforcement) (auth_set : AuthProxy) (operation_params : AuthorizationSet)
    (op_handle : keymaster_operation_handle_t) : keymaster_error_t × KeymasterEnforcement :=
  AuthorizeUpdateOrFinish s auth_set operation_params op_handle

/-- Member `AuthorizeFinish`: `return AuthorizeUpdateOrFinish(auth_set,
operation_params, op_handle);`. -/
def AuthorizeFinish {AuthProxy AuthorizationSet : Type}
    (AuthorizeUpdateOrFinish : KeymasterEnforcement → AuthProxy → AuthorizationSet →
      keymaster_operation_handle_t → keymaster_error_t × KeymasterEnforcement)
    (s : KeymasterEnforcement) (auth_set : AuthProxy) (operation_params : AuthorizationSet)
    (op_handle : keymaster_operation_handle_t) : keymaster_error_t × KeymasterEnforcement :=
  AuthorizeUpdateOrFinish s auth_set operation_params op_handle

/-! ## Authorization data consumed by `AuthorizeBegin` -/

/-- Cryptographic operation kind, `keymaster_purpose_t`. -/
inductive keymaster_purpose_t
  | KM_PURPOSE_ENCRYPT
  | KM_PURPOSE_DECRYPT
  | KM_PURPOSE_SIGN
  | KM_PURPOSE_VERIFY
  deriving DecidableEq, Repr

/-- Modelled from the spec: the originating purposes are encrypt and sign. -/
def keymaster_purpose_t.isOriginating : keymaster_purpose_t → Bool
  | .KM_PURPOSE_ENCRYPT => true
  | .KM_PURPOSE_SIGN => true
  | _ => false

/-- Modelled from the spec: the authentication token `hw_auth_token_t`, a record
of a user authentication event with an operation-binding challenge, a
user-secure-id, an authentication-type bitmask and a timestamp. -/
structure hw_auth_token_t where
  challenge : Nat
  user_id : Nat
  authenticator_type : Nat
  timestamp : Nat
  deriving DecidableEq, Repr

/-- Modelled from the spec: the tags of a key's authorization set that the
engine reads (`AuthProxy` is declared outside the header).  An absent tag is
`none` / `false`. -/
structure AuthProxy where
  activation_datetime : Option Nat
  origination_expire_datetime : Option Nat
  min_seconds_between_ops : Option Nat
  max_uses_per_boot : Option Nat
  user_secure_ids : List Nat
  user_auth_type : Option Nat
  auth_timeout : Option Nat
  early_boot_only : Bool
  unlocked_device_required : Bool
  deriving DecidableEq, Repr

/-- Modelled from the spec: the operation parameters, of which the engine reads
the presented authentication token, if any. -/
structure AuthorizationSet where
  auth_token : Option hw_auth_token_t
  deriving DecidableEq, Repr

/-- The injected collaborators of one call: the pure virtual members
`activation_date_valid`, `expiration_date_passed`, `auth_token_timed_out`,
`ValidateTokenSignature` of the header, and the authentication-type bit that
stands for a password (a constant declared outside the repository). -/
structure EnforcementContext where
  activation_date_valid : Nat → Bool
  expiration_date_passed : Nat → Bool
  auth_token_timed_out : hw_auth_token_t → Nat → Bool
  ValidateTokenSignature : hw_auth_token_t → Bool
  HW_AUTH_PASSWORD : Nat

/-! ## `AuthorizeBegin` -/

/-- Modelled from the spec: the body of `MinTimeBetweenOpsPassed` is not in the
header.  The time tracker must show no prior entry for this key id newer than
`now - min_interval`; the comparison is on integers, so `now - min_interval`
may be negative. -/
def MinTimeBetweenOpsPassed (s : KeymasterEnforcement) (now : Nat) (min_time_between : Nat)
    (keyid : km_id_t) : Bool :=
  match s.access_time_map_.Lookup keyid with
  | none => true
  | some last_access_time =>
    !decide ((now : Int) - (min_time_between : Int) < (last_access_time : Int))

/-- Usage counter of a key id in the count tracker; a key id without an entry
has not been used in this boot session. -/
def keyAccessCount (s : KeymasterEnforcement) (keyid : km_id_t) : Nat :=
  (s.access_count_map_.Lookup keyid).getD 0

/-- Modelled from the spec: the body of `MaxUsesPerBootNotExceeded` is not in
the header.  The count tracker's counter for this key id must be strictly below
the limit. -/
def MaxUsesPerBootNotExceeded (s : KeymasterEnforcement) (keyid : km_id_t) (max_uses : Nat) :
    Bool :=
  decide (keyAccessCount s keyid < max_uses)

/-- Modelled from the spec: step 1 of `AuthorizeBegin`, the key-level time
window.  The activation date, if present, must have passed; the
origination-expiration date, if present and the purpose is an originating one,
must not have passed. -/
def timeWindowCheck (ctx : EnforcementContext) (purpose : keymaster_purpose_t)
    (auth_set : AuthProxy) : Option keymaster_error_t :=
  let notYetActive : Bool :=
    match auth_set.activation_datetime with
    | some d => !ctx.activation_date_valid d
    | none => false
  let expired : Bool :=
    match auth_set.origination_expire_datetime with
    | some d => purpose.isOriginating && ctx.expiration_date_passed d
    | none => false
  if notYetActive then some key_not_yet_active
  else if expired then some key_expired
  else none

/-- Modelled from the spec: step 2, first half.  With a
minimum-seconds-between-ops tag the interval check must pass, and on success
the time tracker is updated to `now` for this key id. -/
def minIntervalStep (s : KeymasterEnforcement) (now : Nat) (keyid : km_id_t)
    (auth_set : AuthProxy) : Except keymaster_error_t KeymasterEnforcement :=
  match auth_set.min_seconds_between_ops with
  | none => .ok s
  | some min_time_between =>
    if MinTimeBetweenOpsPassed s now min_time_between keyid then
      .ok { s with access_time_map_ := s.access_time_map_.Update keyid now }
    else .error rate_limit_violated

/-- Modelled from the spec: step 2, second half.  With a maximum-uses-per-boot
tag the counter must be strictly below the limit, and on success it is
incremented. -/
def maxUsesStep (s : KeymasterEnforcement) (keyid : km_id_t) (auth_set : AuthProxy) :
    Except keymaster_error_t KeymasterEnforcement :=
  match auth_set.max_uses_per_boot with
  | none => .ok s
  | some max_uses =>
    if MaxUsesPerBootNotExceeded s keyid max_uses then
      .ok { s with
            access_count_map_ := s.access_count_map_.Update keyid (keyAccessCount s keyid + 1) }
    else .error usage_limit_exceeded

/-- Modelled from the spec: step 3, early-boot gating. -/
def earlyBootCheck (s : KeymasterEnforcement) (auth_set : AuthProxy) :
    Option keymaster_error_t :=
  if auth_set.early_boot_only && !in_early_boot s then some early_boot_restricted else none

/-- Whether the lock state records a lock.  The members hold a lock time and a
password-only qualifier and no separate flag; the device counts as locked as
soon as they differ from the never-locked state `(0, false)` the constructor
leaves, so a password-only lock at clock reading `0` is a lock.  (A lock at
reading `0` without the qualifier leaves the constructor's state itself.) -/
def deviceIsLocked (s : KeymasterEnforcement) : Bool :=
  decide (s.device_locked_at_ ≠ 0) || s.password_unlock_only_

/-- Modelled from the spec: step 4, device-lock gating.  A locked device denies
an unlocked-device-required key unless a presented token is strictly later than
the lock time and, after a password-only lock, is a password token. -/
def deviceLockCheck (ctx : EnforcementContext) (s : KeymasterEnforcement) (auth_set : AuthProxy)
    (operation_params : AuthorizationSet) : Option keymaster_error_t :=
  if auth_set.unlocked_device_required && deviceIsLocked s then
    match operation_params.auth_token with
    | none => some device_locked_restricted
    | some token =>
      if decide (s.device_locked_at_ < token.timestamp) &&
          (!s.password_unlock_only_ ||
            decide (Nat.land token.authenticator_type ctx.HW_AUTH_PASSWORD ≠ 0)) then none
      else some device_locked_restricted
  else none

/-- Modelled from the spec: step 5, the user-authentication requirement.  With a
required authentication type and a timeout, a token must be present, carry a
valid signature, not be timed out, and its user-secure-id must be one of the
authorized secure ids. -/
def userAuthCheck (ctx : EnforcementContext) (auth_set : AuthProxy)
    (operation_params : AuthorizationSet) : Option keymaster_error_t :=
  match auth_set.user_auth_type, auth_set.auth_timeout with
  | some _, some timeout =>
    match operation_params.auth_token with
    | none => some authentication_required_missing
    | some token =>
      if !ctx.ValidateTokenSignature token then some authentication_signature_invalid
      else if ctx.auth_token_timed_out token timeout then some authentication_expired
      else if decide (token.user_id ∈ auth_set.user_secure_ids) then none
      else some authentication_mismatched_secure_id
  | _, _ => none

/-- Modelled from the spec: the body of `AuthorizeBegin` is not in the header.
The five checks run in the documented order and stop at the first failure,
whose denial reason is returned; `ms` is the clock reading of this call and
`now` the seconds value `get_current_time()` derives from it. -/
def AuthorizeBegin (ctx : EnforcementContext) (ms : Nat) (s : KeymasterEnforcement)
    (purpose : keymaster_purpose_t) (keyid : km_id_t) (auth_set : AuthProxy)
    (operation_params : AuthorizationSet) : keymaster_error_t × KeymasterEnforcement :=
  match timeWindowCheck ctx purpose auth_set with
  | some e => (e, s)
  | none =>
    match minIntervalStep s (get_current_time ms) keyid auth_set with
    | .error e => (e, s)
    | .ok s1 =>
      match maxUsesStep s1 keyid auth_set with
      | .error e => (e, s1)
      | .ok s2 =>
        match earlyBootCheck s2 auth_set with
        | some e => (e, s2)
        | none =>
          match deviceLockCheck ctx s2 auth_set operation_params with
          | some e => (e, s2)
          | none =>
            match userAuthCheck ctx auth_set operation_params with
            | some e => (e, s2)
            | none => (KM_ERROR_OK, s2)

/-- One `AuthorizeBegin` request together with the collaborators and the clock
reading it runs against. -/
structure BeginCall where
  ctx : EnforcementContext
  ms : Nat
  purpose : keymaster_purpose_t
  keyid : km_id_t
  auth_set : AuthProxy
  operation_params : AuthorizationSet

/-- Run one request on a state. -/
def BeginCall.run (s : KeymasterEnforcement) (c : BeginCall) :
    keymaster_error_t × KeymasterEnforcement :=
  AuthorizeBegin c.ctx c.ms s c.purpose c.keyid c.auth_set c.operation_params

/-- Status codes a sequence of requests returns for the requests on `keyid`,
in call order; requests on other key ids run but their codes are left out. -/
def resultsFor (keyid : km_id_t) (s : KeymasterEnforcement) :
    List BeginCall → List keymaster_error_t
  | [] => []
  | c :: cs =>
    if c.keyid = keyid then (c.run s).1 :: resultsFor keyid (c.run s).2 cs
    else resultsFor keyid (c.run s).2 cs

/-- Collaborators under which every injected check passes: any activation date
is valid, no expiration date has passed, no token is timed out, every token
signature is valid. -/
def scenarioContext : EnforcementContext :=
  { activation_date_valid := fun _ => true
    expiration_date_passed := fun _ => false
    auth_token_timed_out := fun _ _ => false
    ValidateTokenSignature := fun _ => true
    HW_AUTH_PASSWORD := 1 }

/-- An authorization set whose only tag is max-uses-per-boot. -/
def maxUsesAuth (max_uses : Nat) : AuthProxy :=
  { activation_datetime := none
    origination_expire_datetime := none
    min_seconds_between_ops := none
    max_uses_per_boot := some max_uses
    user_secure_ids := []
    user_auth_type := none
    auth_timeout := none
    early_boot_only := false
    unlocked_device_required := false }

/-- An authorization set whose only tag is min-seconds-between-ops. -/
def minIntervalAuth (min_time_between : Nat) : AuthProxy :=
  { activation_datetime := none
    origination_expire_datetime := none
    min_seconds_between_ops := some min_time_between
    max_uses_per_boot := none
    user_secure_ids := []
    user_auth_type := none
    auth_timeout := none
    early_boot_only := false
    unlocked_device_required := false }

/-- A sign request for `keyid` at clock reading `ms`, without a token. -/
def scenarioCall (ms : Nat) (keyid : km_id_t) (auth_set : AuthProxy) : BeginCall :=
  { ctx := scenarioContext
    ms := ms
    purpose := keymaster_purpose_t.KM_PURPOSE_SIGN
    keyid := keyid
    auth_set := auth_set
    operation_params := { auth_token := none } }

/-! ## Properties of the inline members -/

/-- Running a concatenation of operation sequences is running them in turn. -/
theorem runSignals_append (s : KeymasterEnforcement) (xs ys : List SignalOp) :
    runSignals s (xs ++ ys) = runSignals (runSignals s xs) ys := by
  induction xs generalizing s with
  | nil => rfl
  | cons op ops ih => simpa [runSignals] using ih (op.apply s)

/-- A cleared early-boot flag stays cleared across one operation. -/
theorem in_early_boot_apply_of_false (s : KeymasterEnforcement) (op : SignalOp)
    (h : in_early_boot s = false) : in_early_boot (op.apply s) = false := by
  cases op with
  | early_boot_ended => rfl
  | device_locked ms password_only => simpa [SignalOp.apply, device_locked, in_early_boot] using h

/-- A cleared early-boot flag stays cleared across any operation sequence. -/
theorem in_early_boot_runSignals_of_false (s : KeymasterEnforcement) (ops : List SignalOp)
    (h : in_early_boot s = false) : in_early_boot (runSignals s ops) = false := by
  induction ops generalizing s with
  | nil => simpa [runSignals] using h
  | cons op ops ih =>
    simpa [runSignals] using ih (op.apply s) (in_early_boot_apply_of_false s op h)

/-- A sequence of `device_locked` calls leaves the early-boot flag as it was. -/
theorem in_early_boot_runSignals_locks (s : KeymasterEnforcement) (locks : List (Nat × Bool)) :
    in_early_boot (runSignals s (locks.map fun l => SignalOp.device_locked l.1 l.2)) =
      in_early_boot s := by
  induction locks generalizing s with
  | nil => rfl
  | cons l ls ih =>
    simp only [List.map_cons, runSignals]
    rw [ih]
    rfl

/-- C1: early boot is a one-way transition.  From every state, in every finite
sequence of `early_boot_ended()` / `device_locked(b)` calls that contains an
`early_boot_ended()`, `in_early_boot()` is false after every operation that
follows it (`later` is an arbitrary continuation, so this covers every later
point); `early_boot_ended()` is idempotent; and no single operation turns a
false flag back to true. -/
theorem C1_early_boot_one_way (s : KeymasterEnforcement) (earlier later : List SignalOp) :
    in_early_boot (runSignals s (earlier ++ SignalOp.early_boot_ended :: later)) = false ∧
    early_boot_ended (early_boot_ended s) = early_boot_ended s ∧
    ∀ op : SignalOp, (in_early_boot (op.apply s) && !in_early_boot s) = false := by
  refine ⟨?_, rfl, ?_⟩
  · rw [runSignals_append]
    exact in_early_boot_runSignals_of_false (early_boot_ended (runSignals s earlier)) later rfl
  · intro op
    cases hs : in_early_boot s with
    | true => simp
    | false => simp [in_early_boot_apply_of_false s op hs]

/-- C2: a freshly constructed engine, whatever the two capacities, is in early
boot, has lock time `0` and a false password-only qualifier, and
`in_early_boot()` is still true after any number of `device_locked` calls (any
qualifiers, any clock readings) as long as `early_boot_ended()` is not called. -/
theorem C2_fresh_engine (max_access_time_map_size max_access_count_map_size : Nat)
    (locks : List (Nat × Bool)) :
    in_early_boot
        (KeymasterEnforcement.create max_access_time_map_size max_access_count_map_size) = true ∧
    (KeymasterEnforcement.create max_access_time_map_size
        max_access_count_map_size).device_locked_at_ = 0 ∧
    (KeymasterEnforcement.create max_access_time_map_size
        max_access_count_map_size).password_unlock_only_ = false ∧
    in_early_boot
        (runSignals
          (KeymasterEnforcement.create max_access_time_map_size max_access_count_map_size)
          (locks.map fun l => SignalOp.device_locked l.1 l.2)) = true := by
  refine ⟨rfl, rfl, rfl, ?_⟩
  rw [in_early_boot_runSignals_locks]
  rfl

/-- C3: `device_locked(password_only)` records the clock reading and the
qualifier.  For every prior state, every qualifier and every 64-bit reading
`t`, the lock time afterwards is `t` itself (no truncation) and the qualifier
is the argument; after two successive calls the state holds exactly the second
pair, and is the state a single call with the second pair produces. -/
theorem C3_device_locked_records (s : KeymasterEnforcement) (p1 p2 : Bool) (t1 t2 : Nat)
    (h1 : t1 < UINT64_RANGE) (h2 : t2 < UINT64_RANGE) :
    (device_locked s t1 p1).device_locked_at_ = t1 ∧
    (device_locked s t1 p1).password_unlock_only_ = p1 ∧
    (device_locked (device_locked s t1 p1) t2 p2).device_locked_at_ = t2 ∧
    (device_locked (device_locked s t1 p1) t2 p2).password_unlock_only_ = p2 ∧
    device_locked (device_locked s t1 p1) t2 p2 = device_locked s t2 p2 := by
  refine ⟨?_, rfl, ?_, rfl, rfl⟩
  · exact Nat.mod_eq_of_lt h1
  · exact Nat.mod_eq_of_lt h2

/-- Witness for C3: a lock at reading `2 ^ 40 + 7` (wider than 32 bits) with
the password-only qualifier, followed by a lock at reading `5` without it. -/
theorem C3_device_locked_records_witness :
    (2 ^ 40 + 7 < UINT64_RANGE ∧ 5 < UINT64_RANGE) ∧
    (device_locked (KeymasterEnforcement.create 4 4) (2 ^ 40 + 7) true).device_locked_at_ =
      2 ^ 40 + 7 ∧
    (device_locked (KeymasterEnforcement.create 4 4) (2 ^ 40 + 7) true).password_unlock_only_ =
      true ∧
    (device_locked (device_locked (KeymasterEnforcement.create 4 4) (2 ^ 40 + 7) true)
      5 false).device_locked_at_ = 5 ∧
    (device_locked (device_locked (KeymasterEnforcement.create 4 4) (2 ^ 40 + 7) true)
      5 false).password_unlock_only_ = false ∧
    device_locked (device_locked (KeymasterEnforcement.create 4 4) (2 ^ 40 + 7) true) 5 false =
      device_locked (KeymasterEnforcement.create 4 4) 5 false :=
  ⟨⟨by decide, by decide⟩,
    C3_device_locked_records (KeymasterEnforcement.create 4 4) true false (2 ^ 40 + 7) 5
      (by decide) (by decide)⟩

/-- C6: `AuthorizeUpdate` and `AuthorizeFinish` are the same decision.  For
every shared routine, state, authorization set, operation parameters and
handle, each returns exactly what `AuthorizeUpdateOrFinish` returns on the
unchanged arguments, so the two return equal status codes and equal states. -/
theorem C6_update_finish_same_decision {AuthProxy AuthorizationSet : Type}
    (AuthorizeUpdateOrFinish : KeymasterEnforcement → AuthProxy → AuthorizationSet →
      keymaster_operation_handle_t → keymaster_error_t × KeymasterEnforcement)
    (s : KeymasterEnforcement) (auth_set : AuthProxy) (operation_params : AuthorizationSet)
    (op_handle : keymaster_operation_handle_t) :
    AuthorizeUpdate AuthorizeUpdateOrFinish s auth_set operation_params op_handle =
      AuthorizeUpdateOrFinish s auth_set operation_params op_handle ∧
    AuthorizeFinish AuthorizeUpdateOrFinish s auth_set operation_params op_handle =
      AuthorizeUpdateOrFinish s auth_set operation_params op_handle ∧
    (AuthorizeUpdate AuthorizeUpdateOrFinish s auth_set operation_params op_handle).1 =
      (AuthorizeFinish AuthorizeUpdateOrFinish s auth_set operation_params op_handle).1 ∧
    (AuthorizeUpdate AuthorizeUpdateOrFinish s auth_set operation_params op_handle).2 =
      (AuthorizeFinish AuthorizeUpdateOrFinish s auth_set operation_params op_handle).2 :=
  ⟨rfl, rfl, rfl, rfl⟩

/-- C7: the base-class `ComputeHmac` is unimplemented.  For every byte sequence
(the empty one included) and every state it returns the error
`KM_ERROR_UNIMPLEMENTED`, never a 32-byte MAC, and the call leaves the state
unchanged. -/
theorem C7_ComputeHmac_unimplemented (s : KeymasterEnforcement) (data_to_mac : List (Fin 256)) :
    ComputeHmac s data_to_mac = Except.error KM_ERROR_UNIMPLEMENTED ∧
    (∀ mac, ComputeHmac s data_to_mac ≠ Except.ok mac) ∧
    ComputeHmac s [] = Except.error KM_ERROR_UNIMPLEMENTED ∧
    MemberCall.exec s (MemberCall.call_ComputeHmac data_to_mac) = s := by
  refine ⟨rfl, ?_, rfl, rfl⟩
  intro mac h
  cases h

/-- C8: each signalling operation touches only its own part of the state.
`early_boot_ended()` leaves the lock time and the password-only qualifier
unchanged, `device_locked(p)` leaves `in_early_boot_` unchanged, neither
changes the two tracker members, and the readers `in_early_boot()` and
`get_current_time()` change no member at all. -/
theorem C8_frame (s : KeymasterEnforcement) (ms : Nat) (password_only : Bool) :
    ((early_boot_ended s).device_locked_at_ = s.device_locked_at_ ∧
      (early_boot_ended s).password_unlock_only_ = s.password_unlock_only_) ∧
    (device_locked s ms password_only).in_early_boot_ = s.in_early_boot_ ∧
    ((early_boot_ended s).access_time_map_ = s.access_time_map_ ∧
      (early_boot_ended s).access_count_map_ = s.access_count_map_ ∧
      (device_locked s ms password_only).access_time_map_ = s.access_time_map_ ∧
      (device_locked s ms password_only).access_count_map_ = s.access_count_map_) ∧
    (MemberCall.exec s MemberCall.call_in_early_boot = s ∧
      MemberCall.exec s (MemberCall.call_get_current_time ms) = s) ∧
    (MemberCall.exec s MemberCall.call_early_boot_ended = early_boot_ended s ∧
      MemberCall.exec s (MemberCall.call_device_locked ms password_only) =
        device_locked s ms password_only) :=
  ⟨⟨rfl, rfl⟩, rfl, ⟨rfl, rfl, rfl, rfl⟩, ⟨rfl, rfl⟩, ⟨rfl, rfl⟩⟩

/-- C9, as stated, fails: the readings `1000 * (2 ^ 32 - 1) <= 1000 * 2 ^ 32`
are both 64-bit values, yet `get_current_time()` yields `2 ^ 32 - 1` for the
first and `0` for the second. -/
theorem C9_not_monotone_across_wrap :
    1000 * (2 ^ 32 - 1) ≤ 1000 * 2 ^ 32 ∧
    1000 * (2 ^ 32 - 1) < UINT64_RANGE ∧ 1000 * 2 ^ 32 < UINT64_RANGE ∧
    get_current_time (1000 * (2 ^ 32 - 1)) = 2 ^ 32 - 1 ∧
    get_current_time (1000 * 2 ^ 32) = 0 ∧
    ¬ get_current_time (1000 * (2 ^ 32 - 1)) ≤ get_current_time (1000 * 2 ^ 32) := by
  simp [get_current_time, UINT64_RANGE, UINT32_RANGE]

/-- C9, amended: `get_current_time()` is monotone within one wrap period.  For
64-bit readings `a <= b` that lie in the same period of `1000 * 2 ^ 32`
milliseconds, the seconds value of `a` is at most the seconds value of `b`. -/
theorem C9_monotone_within_wrap_period (a b : Nat) (hab : a ≤ b) (hb : b < UINT64_RANGE)
    (hperiod : a / (1000 * UINT32_RANGE) = b / (1000 * UINT32_RANGE)) :
    get_current_time a ≤ get_current_time b := by
  have ha : a < UINT64_RANGE := lt_of_le_of_lt hab hb
  simp only [get_current_time, UINT64_RANGE, UINT32_RANGE, Nat.mod_eq_of_lt ha,
    Nat.mod_eq_of_lt hb] at *
  omega

/-- Witness for the amended C9: the readings `2500` and `7999`. -/
theorem C9_monotone_within_wrap_period_witness :
    (2500 ≤ 7999 ∧ 7999 < UINT64_RANGE ∧
      2500 / (1000 * UINT32_RANGE) = 7999 / (1000 * UINT32_RANGE)) ∧
    get_current_time 2500 ≤ get_current_time 7999 :=
  ⟨⟨by decide, by decide, by decide⟩,
    C9_monotone_within_wrap_period 2500 7999 (by decide) (by decide) (by decide)⟩

/-- C10: `get_current_time()` is the millisecond clock divided by 1000 and
truncated to 32 bits.  For every 64-bit reading `ms` it is
`floor(ms / 1000) mod 2 ^ 32`; it is `floor(ms / 1000)` exactly when
`ms < 1000 * 2 ^ 32`; and `1000 * 2 ^ 32` is the first reading at which it
returns `0` again, that is, returns `0` after a reading with a nonzero value:
it does so at `1000 * 2 ^ 32`, and any reading that does so is at least
`1000 * 2 ^ 32`. -/
theorem C10_seconds_truncated (ms : Nat) (h : ms < UINT64_RANGE) :
    get_current_time ms = ms / 1000 % 2 ^ 32 ∧
    (ms < 1000 * 2 ^ 32 → get_current_time ms = ms / 1000) ∧
    (get_current_time (1000 * 2 ^ 32) = 0 ∧
      ∃ m, m < 1000 * 2 ^ 32 ∧ get_current_time m ≠ 0) ∧
    ((get_current_time ms = 0 ∧ ∃ m, m < ms ∧ get_current_time m ≠ 0) →
      1000 * 2 ^ 32 ≤ ms) := by
  have hgen : ∀ x : Nat, x < 1000 * 2 ^ 32 → get_current_time x = x / 1000 := by
    intro x hx
    simp only [get_current_time, UINT64_RANGE, UINT32_RANGE]
    have h1 : x % 2 ^ 64 = x := Nat.mod_eq_of_lt (by omega)
    rw [h1]
    exact Nat.mod_eq_of_lt (by omega)
  refine ⟨?_, hgen ms, ⟨?_, 1000, by norm_num, ?_⟩, ?_⟩
  · simp only [get_current_time, UINT64_RANGE, UINT32_RANGE] at *
    rw [Nat.mod_eq_of_lt h]
  · simp [get_current_time, UINT64_RANGE, UINT32_RANGE]
  · simp [get_current_time, UINT64_RANGE, UINT32_RANGE]
  · rintro ⟨hz, m, hm, hne⟩
    by_contra hlt
    have hlt2 : ms < 1000 * 2 ^ 32 := Nat.lt_of_not_le hlt
    have hms : ms / 1000 = 0 := by rw [← hgen ms hlt2]; exact hz
    have hm2 : m < 1000 * 2 ^ 32 := lt_trans hm hlt2
    apply hne
    rw [hgen m hm2]
    omega

/-- Witness for C10 at the wrap point `ms = 1000 * 2 ^ 32`. -/
theorem C10_seconds_truncated_witness :
    1000 * 2 ^ 32 < UINT64_RANGE ∧
    (get_current_time (1000 * 2 ^ 32) = 1000 * 2 ^ 32 / 1000 % 2 ^ 32 ∧
    (1000 * 2 ^ 32 < 1000 * 2 ^ 32 → get_current_time (1000 * 2 ^ 32) = 1000 * 2 ^ 32 / 1000) ∧
    (get_current_time (1000 * 2 ^ 32) = 0 ∧
      ∃ m, m < 1000 * 2 ^ 32 ∧ get_current_time m ≠ 0) ∧
    ((get_current_time (1000 * 2 ^ 32) = 0 ∧
        ∃ m, m < 1000 * 2 ^ 32 ∧ get_current_time m ≠ 0) →
      1000 * 2 ^ 32 ≤ 1000 * 2 ^ 32)) :=
  ⟨by decide, C10_seconds_truncated (1000 * 2 ^ 32) (by decide)⟩

/-! ## Bounded usage trackers -/

/-- Overwriting keeps the number of entries. -/
theorem overwriteEntry_length (l : List (km_id_t × Nat)) (keyid : km_id_t) (value : Nat) :
    (overwriteEntry l keyid value).length = l.length := by
  induction l with
  | nil => rfl
  | cons e rest ih =>
    obtain ⟨k, v⟩ := e
    by_cases hk : k = keyid
    · simp [overwriteEntry, hk]
    · simp [overwriteEntry, hk, ih]

/-- The smallest value of a non-empty entry list is the value of some entry. -/
theorem minValue_mem (l : List (km_id_t × Nat)) (h : l ≠ []) :
    minValue l ∈ l.map Prod.snd := by
  induction l with
  | nil => exact absurd rfl h
  | cons e rest ih =>
    obtain ⟨k, v⟩ := e
    cases rest with
    | nil => simp [minValue]
    | cons e2 rest2 =>
      have hrec := ih (List.cons_ne_nil e2 rest2)
      have hmin : minValue ((k, v) :: e2 :: rest2) = min v (minValue (e2 :: rest2)) := rfl
      rw [hmin]
      rcases Nat.le_total v (minValue (e2 :: rest2)) with hle | hle
      · rw [Nat.min_eq_left hle]
        simp
      · rw [Nat.min_eq_right hle]
        exact List.mem_cons_of_mem _ hrec

/-- Removing the first entry with a value that occurs removes exactly one entry. -/
theorem removeFirstWithValue_length (l : List (km_id_t × Nat)) (m : Nat)
    (h : m ∈ l.map Prod.snd) : (removeFirstWithValue l m).length + 1 = l.length := by
  induction l with
  | nil => simp at h
  | cons e rest ih =>
    obtain ⟨k, v⟩ := e
    by_cases hv : v = m
    · simp [removeFirstWithValue, hv]
    · have hrest : m ∈ rest.map Prod.snd := by
        simp only [List.map_cons, List.mem_cons] at h
        rcases h with h | h
        · exact absurd h.symm hv
        · exact h
      simp [removeFirstWithValue, hv, ih hrest]

/-- Size invariant of the trackers: a table within its capacity stays within
its capacity under `Update`. -/
theorem BoundedTracker.Update_size_le (t : BoundedTracker) (keyid : km_id_t) (value : Nat)
    (h : t.entries.length ≤ t.capacity) :
    (t.Update keyid value).entries.length ≤ t.capacity := by
  unfold BoundedTracker.Update
  split
  · simpa [overwriteEntry_length] using h
  · split
    · rename_i hlt
      simp only [List.length_append, List.length_singleton]
      omega
    · split
      · exact h
      · rename_i hfull hcap
        have hne : t.entries ≠ [] := by
          intro hnil
          rw [hnil] at hfull
          simp only [List.length_nil] at hfull
          omega
        have hlen := removeFirstWithValue_length t.entries (minValue t.entries)
          (minValue_mem t.entries hne)
        simp only [evictOne, List.length_append, List.length_singleton]
        omega

/-- The max-uses scenario of the design document: key id `0xAA` with max-uses
`2`, `AuthorizeBegin` at `t = 0, 1, 2` seconds. -/
theorem scenario_max_uses :
    resultsFor 0xAA (KeymasterEnforcement.create 4 4)
      [scenarioCall 0 0xAA (maxUsesAuth 2), scenarioCall 1000 0xAA (maxUsesAuth 2),
        scenarioCall 2000 0xAA (maxUsesAuth 2)] =
      [KM_ERROR_OK, KM_ERROR_OK, usage_limit_exceeded] := by
  decide

/-- The min-interval scenario of the design document: key id `0xBB` with a
minimum interval of `5` s, `AuthorizeBegin` at `t = 0, 3, 6` seconds. -/
theorem scenario_min_interval :
    resultsFor 0xBB (KeymasterEnforcement.create 4 4)
      [scenarioCall 0 0xBB (minIntervalAuth 5), scenarioCall 3000 0xBB (minIntervalAuth 5),
        scenarioCall 6000 0xBB (minIntervalAuth 5)] =
      [KM_ERROR_OK, rate_limit_violated, KM_ERROR_OK] := by
  decide

end keymaster
